import Mathlib

/-!
Shallow embedding of the authentication / authorization layer of the
FastAPI-Todo-Project repository (src/app): the SQLAlchemy data model
(`sql_models/user.py`, `sql_models/task.py`), the token helpers and the
identity-resolution dependency (`security.py`), the task CRUD endpoints
(`routers/tasks.py`), the registration endpoint (`routers/users.py`) and the
request-scoped session dependency (`database.py`).

Modelling conventions:
* time is an integer number of seconds (python-jose serialises `exp` to unix
  seconds and compares with second precision);
* a JWT is modelled structurally as its claim set plus the key it was signed
  with; `jwtDecode` reports `malformed` when the verification key differs from
  the signing key (covering both signature mismatch and structurally invalid
  tokens, which python-jose raises as the same `JWTError`) and `expired`
  exactly when `exp < now`, which is python-jose's check (zero leeway:
  a token whose `exp` equals the current second is still accepted);
* the database is a list of records; the SQLAlchemy `scalar_one_or_none`
  lookup is `List.find?` (primary keys make the match unique in the real DB);
* an HTTP failure is its status code, detail string and extra headers;
* bcrypt's digest is abstracted to an injective encoding of (salt, password);
  only the success/failure behaviour of hashing is claimed, never a property
  of the digest bytes.
-/

deriving instance DecidableEq for Except

namespace TodoApi

/-- User record, from `app/sql_models/user.py`: integer primary key, unique
email, hashed password.  The table has no role or `is_admin` column. -/
structure User where
  id : Nat
  email : String
  hashed_password : String
  deriving DecidableEq

/-- Task record, from `app/sql_models/task.py`: integer primary key, title,
optional description, `completed` (server default `false`), optional
`owner_id` foreign key to `users.id`. -/
structure Task where
  id : Nat
  title : String
  description : Option String
  completed : Bool
  owner_id : Option Nat
  deriving DecidableEq

/-- HTTP failure as raised via `fastapi.HTTPException`: status code, detail
message, extra response headers. -/
structure HTTPError where
  status_code : Nat
  detail : String
  headers : List (String × String)
  deriving DecidableEq

/-- JWT claim set as used by `app/security.py`: an optional `sub` claim (the
payload dict may lack the key) and the `exp` claim in unix seconds. -/
structure JWTClaims where
  sub : Option String
  exp : Int
  deriving DecidableEq

/-- Structural model of a signed JWT: the claims plus the signing key.
Signature verification is modelled as comparing the stored key with the
verification key. -/
structure JWTToken where
  claims : JWTClaims
  key : String
  deriving DecidableEq

/-- Failure modes of `jose.jwt.decode` that `security.py` can observe: every
cause (bad signature, structurally invalid token, expired token) surfaces as
the single exception type `JWTError`; we keep the cause as a constructor. -/
inductive JWTError where
  | malformed
  | expired
  deriving DecidableEq

/-- Default signing secret from `app/security.py` (the `os.getenv` fallback). -/
def SECRET_KEY : String :=
  "a_very_secret_key_that_should_be_in_env_var_or_secret_manager_0123456789abcdef"

/-- Default access-token lifetime in minutes, from `app/security.py`. -/
def ACCESS_TOKEN_EXPIRE_MINUTES : Nat := 30

/-- Model of `jose.jwt.encode(claims, key, HS256)`: the token carries its
claims and the key it was signed with. -/
def jwtEncode (claims : JWTClaims) (key : String) : JWTToken :=
  ⟨claims, key⟩

/-- Model of `jose.jwt.decode(token, key, [HS256])` at time `now` (unix
seconds): signature check first, then the expiry check `exp < now` (python-jose
raises `ExpiredSignatureError` iff `exp < now - leeway` with default leeway 0,
so a token is still valid at the very second of its `exp`). -/
def jwtDecode (tok : JWTToken) (key : String) (now : Int) : Except JWTError JWTClaims :=
  if tok.key ≠ key then .error .malformed
  else if tok.claims.exp < now then .error .expired
  else .ok tok.claims

/-- Embedding of `create_access_token(data, expires_delta)` from
`app/security.py` called at time `now`: `data` is the payload dict, of which
only the optional `sub` entry matters here; `expires_delta` is in seconds.
The source branches on `if expires_delta:` — Python truthiness — so both
`None` and a zero timedelta are falsy and select the 30-minute default
lifetime; only a nonzero delta sets `exp = now + delta`.  The token is signed
with `SECRET_KEY`. -/
def create_access_token (sub : Option String) (expires_delta : Option Int)
    (now : Int) : JWTToken :=
  let expire : Int :=
    match expires_delta with
    | some d =>
      if d ≠ 0 then now + d
      else now + (ACCESS_TOKEN_EXPIRE_MINUTES : Int) * 60
    | none => now + (ACCESS_TOKEN_EXPIRE_MINUTES : Int) * 60
  jwtEncode ⟨sub, expire⟩ SECRET_KEY

/-- The single failure object every branch of `get_current_user` raises. -/
def credentialsException : HTTPError :=
  ⟨401, "Could not validate credentials", [("WWW-Authenticate", "Bearer")]⟩

/-- Embedding of `get_current_user` from `app/security.py`, evaluated at time
`now` against the user table `users`: decode the token (any `JWTError` →
`credentialsException`), require the `sub` claim (absent →
`credentialsException`), look the email up (`scalar_one_or_none`; no row →
`credentialsException`), else return the user. -/
def get_current_user (token : JWTToken) (now : Int) (users : List User) :
    Except HTTPError User :=
  match jwtDecode token SECRET_KEY now with
  | .error _ => .error credentialsException
  | .ok payload =>
    match payload.sub with
    | none => .error credentialsException
    | some email =>
      match users.find? (fun u => u.email == email) with
      | none => .error credentialsException
      | some u => .ok u

/-- Request body for task creation and update, from `app/models/task.py`
(`TaskCreate` = `TaskBase`): a required `title` and an optional `description`.
The schema carries no `owner_id` and no `completed` field.  `description_set`
records whether the client's JSON supplied the `description` key at all
(Pydantic tracks this; `model_dump(exclude_unset=True)` drops unset fields). -/
structure TaskCreate where
  title : String
  description : Option String
  description_set : Bool
  deriving DecidableEq

/-- The 404 failure every missing-or-foreign task lookup raises in
`app/routers/tasks.py`. -/
def taskNotFound : HTTPError := ⟨404, "Task not found", []⟩

/-- The 422 failure FastAPI returns when the `Path(..., ge=1)` constraint on
`task_id` is violated, before the endpoint body runs. -/
def pathGe1Error : HTTPError :=
  ⟨422, "Input should be greater than or equal to 1", []⟩

/-- The ownership-scoped lookup shared by the read / update / delete endpoints
in `app/routers/tasks.py`: `select(Task).where(Task.id == task_id,
Task.owner_id == current_user.id)` followed by `scalar_one_or_none()`. -/
def findOwnedTask (task_id : Nat) (current_user : User) (db : List Task) :
    Option Task :=
  db.find? (fun t => t.id == task_id && t.owner_id == some current_user.id)

/-- Embedding of `create_task` from `app/routers/tasks.py`: build a task from
`task_in.model_dump()` with `owner_id` forced to the caller's id (the client
cannot supply it), `completed` left to its column default `false`, and the
storage-assigned primary key `newId`; append it to the table.  Returns the
created row and the new table. -/
def create_task (task_in : TaskCreate) (current_user : User) (db : List Task)
    (newId : Nat) : Task × List Task :=
  let db_task : Task :=
    { id := newId
      title := task_in.title
      description := task_in.description
      completed := false
      owner_id := some current_user.id }
  (db_task, db ++ [db_task])

/-- Embedding of `read_task` from `app/routers/tasks.py`: path validation
(`ge=1`), then the ownership-scoped lookup; no row → 404 `Task not found`. -/
def read_task (task_id : Nat) (current_user : User) (db : List Task) :
    Except HTTPError Task :=
  if task_id < 1 then .error pathGe1Error
  else
    match findOwnedTask task_id current_user db with
    | none => .error taskNotFound
    | some t => .ok t

/-- Application of `for key, value in task_update.model_dump(exclude_unset=True)
.items(): setattr(db_task, key, value)` to one row: `title` is a required
field so it is always set; `description` is written only when the client's
JSON supplied it. -/
def applyTaskUpdate (task_update : TaskCreate) (t : Task) : Task :=
  { t with
      title := task_update.title
      description :=
        if task_update.description_set then task_update.description
        else t.description }

/-- Embedding of `update_task` from `app/routers/tasks.py`: path validation,
ownership-scoped lookup (no row → 404, table unchanged), else mutate the found
row in place (primary-key uniqueness makes the matched row unique) and commit.
Returns the endpoint outcome and the new table. -/
def update_task (task_id : Nat) (task_update : TaskCreate) (current_user : User)
    (db : List Task) : Except HTTPError Task × List Task :=
  if task_id < 1 then (.error pathGe1Error, db)
  else
    match findOwnedTask task_id current_user db with
    | none => (.error taskNotFound, db)
    | some t =>
      (.ok (applyTaskUpdate task_update t),
       db.map (fun x =>
         if x.id == task_id && x.owner_id == some current_user.id then
           applyTaskUpdate task_update x
         else x))

/-- Embedding of `delete_task` from `app/routers/tasks.py`: path validation,
ownership-scoped lookup (no row → 404, table unchanged), else delete the row
and commit; success is 204 with no body. -/
def delete_task (task_id : Nat) (current_user : User) (db : List Task) :
    Except HTTPError Unit × List Task :=
  if task_id < 1 then (.error pathGe1Error, db)
  else
    match findOwnedTask task_id current_user db with
    | none => (.error taskNotFound, db)
    | some _ =>
      (.ok (),
       db.filter (fun x =>
         !(x.id == task_id && x.owner_id == some current_user.id)))

/-- Failure modes the spec's `CredentialHasher.hash` may report.  The
implementation in `app/security.py` (`pwd_context.hash` with the bcrypt
scheme, default options) never raises on any well-formed string: bcrypt
accepts the empty password and passlib silently truncates inputs beyond 72
bytes, so no code path produces `invalidInput`. -/
inductive HashError where
  | invalidInput
  deriving DecidableEq

/-- Abstraction of the bcrypt digest produced for a given random `salt` and
`password`: an injective encoding standing in for the real digest bytes.  Only
its existence (hashing succeeds) is ever claimed. -/
def bcryptHash (salt : Nat) (password : String) : String :=
  "$2b$12$" ++ toString salt ++ "$" ++ password

/-- Embedding of `get_password_hash` from `app/security.py`: it forwards the
password to `pwd_context.hash` unconditionally — there is no validation branch
of any kind, so the result is always a digest. -/
def get_password_hash (salt : Nat) (password : String) :
    Except HashError String :=
  .ok (bcryptHash salt password)

/-- Request body for registration, from `app/models/user.py` (`UserCreate`):
an email and a plaintext password with `min_length=8`. -/
structure UserCreate where
  email : String
  password : String
  deriving DecidableEq

/-- The 422 failure Pydantic validation produces for a password shorter than 8
characters, before `register_user` runs. -/
def passwordTooShortError : HTTPError :=
  ⟨422, "String should have at least 8 characters", []⟩

/-- The 400 failure `register_user` raises on a duplicate email. -/
def emailRegisteredError : HTTPError :=
  ⟨400, "Email already registered", []⟩

/-- Pydantic validation of the `UserCreate` body, from `app/models/user.py`:
the `password` field carries `Field(..., min_length=8)`, so any shorter
password is rejected with a 422 before the endpoint body runs.  (The
orthogonal `EmailStr` format check is not modelled; it affects no claim.) -/
def userCreateValidate (email password : String) : Except HTTPError UserCreate :=
  if password.length < 8 then .error passwordTooShortError
  else .ok ⟨email, password⟩

/-- Embedding of `register_user` from `app/routers/users.py`, preceded by the
framework's body validation: validate the body (failure → 422, store
untouched, nothing hashed); duplicate-email lookup (hit → 400, store
untouched); else hash the password with fresh `salt`, insert the user with
storage-assigned id `newId`, and return it. -/
def register_user (email password : String) (salt : Nat) (newId : Nat)
    (users : List User) : Except HTTPError User × List User :=
  match userCreateValidate email password with
  | .error e => (.error e, users)
  | .ok user_in =>
    match users.find? (fun u => u.email == user_in.email) with
    | some _ => (.error emailRegisteredError, users)
    | none =>
      match get_password_hash salt user_in.password with
      | .error _ => (.error ⟨500, "Internal Server Error", []⟩, users)
      | .ok hashed_password =>
        let db_user : User := ⟨newId, user_in.email, hashed_password⟩
        (.ok db_user, users ++ [db_user])

/-- State of one SQLAlchemy `AsyncSession` (`autocommit=False`,
`autoflush=False`): the writes already committed to the database, the pending
uncommitted writes of the open transaction, and counters for `close` and
`rollback` calls.  Closing a session with `autocommit=False` discards the open
transaction, so `close` drops pending writes without committing them. -/
structure DBSession where
  committed : List Nat
  pending : List Nat
  closeCount : Nat
  rollbackCount : Nat
  deriving DecidableEq

/-- A fresh session over an initial committed database state, as produced by
`AsyncSessionLocal()` in `get_db`. -/
def DBSession.fresh (initial : List Nat) : DBSession :=
  ⟨initial, [], 0, 0⟩

/-- `session.commit()`: pending writes become durable. -/
def DBSession.commit (s : DBSession) : DBSession :=
  { s with committed := s.committed ++ s.pending, pending := [] }

/-- `session.rollback()`: pending writes are discarded. -/
def DBSession.rollback (s : DBSession) : DBSession :=
  { s with pending := [], rollbackCount := s.rollbackCount + 1 }

/-- `session.close()`: the connection is released; the still-open transaction
is discarded, not committed. -/
def DBSession.close (s : DBSession) : DBSession :=
  { s with pending := [], closeCount := s.closeCount + 1 }

/-- Embedding of `get_db` from `app/database.py`.  `body` is everything that
runs while the session is lent out (the endpoint and its dependencies),
returning the session it leaves behind and `none` on normal completion or
`some e` when it raised exception `e`.  The generator then runs: nothing extra
on the normal path (there is no commit in `get_db`; endpoints commit
themselves), `rollback` + re-raise on the exception path, and `close` in the
`finally` block either way. -/
def get_db (initial : List Nat) (body : DBSession → DBSession × Option String) :
    DBSession × Option String :=
  let r := body (DBSession.fresh initial)
  match r.2 with
  | none => (r.1.close, none)
  | some e => (r.1.rollback.close, some e)

/-- Modelled from the spec: the repository contains no `AuthorizationGuard`,
no `requireAdmin`, and no `is_admin` column on any model under `src/` — the
admin-only operation contract exists only in the specification.  An
authenticated identity as the spec describes it: the resolved user record
plus the `is_admin` boolean role flag. -/
structure AuthenticatedIdentity where
  id : Nat
  email : String
  is_admin : Bool
  deriving DecidableEq

/-- The distinct authorization-failure signal the spec assigns to a failed
admin check: a Forbidden status with the message
"administrator privileges required". -/
def adminForbidden : HTTPError :=
  ⟨403, "administrator privileges required", []⟩

/-- Modelled from the spec: `AuthorizationGuard.requireAdmin` — accept iff
`AuthenticatedIdentity.is_admin` is true; else fail with `Forbidden` carrying
the distinct message "administrator privileges required". -/
def requireAdmin (ident : AuthenticatedIdentity) : Except HTTPError Unit :=
  if ident.is_admin then .ok () else .error adminForbidden

/-- A request body that stages one pending write and then completes normally
without committing, as an endpoint that never calls `await db.commit()`
would. -/
def stageWriteBody (s : DBSession) : DBSession × Option String :=
  ({ s with pending := s.pending ++ [1] }, none)

/-- The ownership-scoped lookup returns no row whenever no task with the
requested id is owned by the caller. -/
theorem findOwnedTask_eq_none {i : Nat} {B : User} {db : List Task}
    (hB : ∀ t ∈ db, t.id = i → t.owner_id ≠ some B.id) :
    findOwnedTask i B db = none := by
  unfold findOwnedTask
  rw [List.find?_eq_none]
  intro t ht hcontra
  simp only [Bool.and_eq_true, beq_iff_eq] at hcontra
  exact hB t ht hcontra.1 hcontra.2

/-- C4: for every subject `s` and lifetime `d > 0`, decoding the token
produced by encoding `{sub: s}` with lifetime `d`, at any time `t` with
`0 ≤ t < d` after encoding, succeeds (the signature verifies and the token is
not expired) and yields subject `s`. -/
theorem token_roundtrip (s : String) (d t0 t : Int) (hd : 0 < d)
    (ht0 : 0 ≤ t) (ht : t < d) :
    jwtDecode (create_access_token (some s) (some d) t0) SECRET_KEY (t0 + t) =
      .ok ⟨some s, t0 + d⟩ := by
  have hne : d ≠ 0 := by omega
  simp only [jwtDecode, create_access_token, jwtEncode, ne_eq, hne,
    not_false_eq_true, if_true, not_true_eq_false, if_false]
  rw [if_neg (by omega)]

/-- Witness for C4 at subject "alice", lifetime 60 s, issuance time 1000,
decode 30 s later. -/
theorem token_roundtrip_witness :
    jwtDecode (create_access_token (some "alice") (some 60) 1000) SECRET_KEY 1030 =
      .ok ⟨some "alice", 1060⟩ :=
  token_roundtrip "alice" 60 1000 30 (by decide) (by decide) (by decide)

/-- C5 counterexample: a token requested with `ttl = 0` decodes as Valid at
the issuance instant, not as Expired — the source's `if expires_delta:`
treats a zero timedelta as falsy, so the token is really issued with the
default 30-minute lifetime (`exp = 1000 + 1800`). -/
theorem ttl_zero_not_expired_at_issuance :
    jwtDecode (create_access_token (some "alice") (some 0) 1000) SECRET_KEY 1000 =
      .ok ⟨some "alice", 2800⟩ ∧
    jwtDecode (create_access_token (some "alice") (some 0) 1000) SECRET_KEY 1000 ≠
      .error .expired := by
  constructor
  · decide
  · decide

/-- C5 amended: a token requested with `ttl = 0` is not Expired immediately —
`if expires_delta:` is falsy for a zero timedelta, so the token carries the
default 30-minute lifetime: it decodes as Valid with its subject at every
time `0 ≤ t ≤ 1800` seconds after issuance, and as Expired exactly when
`t > 1800` (python-jose rejects only when `exp < now`). -/
theorem ttl_zero_uses_default_lifetime (s : String) (t0 t : Int) :
    (0 ≤ t → t ≤ 1800 →
      jwtDecode (create_access_token (some s) (some 0) t0) SECRET_KEY (t0 + t) =
        .ok ⟨some s, t0 + 1800⟩) ∧
    (1800 < t →
      jwtDecode (create_access_token (some s) (some 0) t0) SECRET_KEY (t0 + t) =
        .error .expired) := by
  have hexp : (ACCESS_TOKEN_EXPIRE_MINUTES : Int) * 60 = 1800 := by
    norm_num [ACCESS_TOKEN_EXPIRE_MINUTES]
  constructor
  · intro h0 h1800
    simp only [jwtDecode, create_access_token, jwtEncode, ne_eq, not_true_eq_false,
      if_false, ite_self, hexp]
    rw [if_neg (by omega)]
  · intro h
    simp only [jwtDecode, create_access_token, jwtEncode, ne_eq, not_true_eq_false,
      if_false, ite_self, hexp]
    rw [if_pos (by omega)]

/-- Witness for the amended C5: the ttl-0 token is Valid at issuance and for
the following 30 minutes, and Expired one second after they pass. -/
theorem ttl_zero_uses_default_lifetime_witness :
    jwtDecode (create_access_token (some "alice") (some 0) 1000) SECRET_KEY (1000 + 0) =
      .ok ⟨some "alice", 1000 + 1800⟩ ∧
    jwtDecode (create_access_token (some "alice") (some 0) 1000) SECRET_KEY (1000 + 1801) =
      .error .expired :=
  ⟨(ttl_zero_uses_default_lifetime "alice" 1000 0).1 (by decide) (by decide),
   (ttl_zero_uses_default_lifetime "alice" 1000 1801).2 (by decide)⟩

/-- C3: every failing run of `get_current_user` — bad signature, malformed
token, expired token, missing `sub` claim, or no user with the subject email
— raises exactly the same `HTTPException`: 401, detail
"Could not validate credentials", header `WWW-Authenticate: Bearer`. -/
theorem get_current_user_failures_converge (token : JWTToken) (now : Int)
    (users : List User) (e : HTTPError)
    (h : get_current_user token now users = .error e) :
    e = credentialsException := by
  unfold get_current_user at h
  split at h
  · exact (Except.error.inj h).symm
  · split at h
    · exact (Except.error.inj h).symm
    · split at h
      · exact (Except.error.inj h).symm
      · exact absurd h (by simp)

/-- Witness for C3: a token signed with the wrong key fails with exactly the
common credentials failure. -/
theorem get_current_user_failures_converge_witness :
    get_current_user ⟨⟨some "alice", 2000⟩, "wrong_key"⟩ 1000 [] =
      .error credentialsException ∧
    credentialsException = credentialsException :=
  ⟨by decide,
   get_current_user_failures_converge ⟨⟨some "alice", 2000⟩, "wrong_key"⟩ 1000 []
     credentialsException (by decide)⟩

/-- C2 (modelled from the spec, no such code exists under src/):
`requireAdmin` accepts exactly the identities whose `is_admin` flag is true,
otherwise fails with the Forbidden signal "administrator privileges
required", which differs from the unauthenticated signal. -/
theorem requireAdmin_contract (ident : AuthenticatedIdentity) :
    (requireAdmin ident = .ok () ↔ ident.is_admin = true) ∧
    (ident.is_admin = false → requireAdmin ident = .error adminForbidden) ∧
    adminForbidden ≠ credentialsException := by
  refine ⟨?_, ?_, by decide⟩
  · unfold requireAdmin
    cases h : ident.is_admin <;> simp
  · intro h
    unfold requireAdmin
    rw [h]
    simp

/-- Witness for C2: a non-admin identity is rejected with the distinct
Forbidden signal and an admin identity is accepted. -/
theorem requireAdmin_contract_witness :
    requireAdmin ⟨1, "bob", false⟩ = .error adminForbidden ∧
    requireAdmin ⟨2, "root", true⟩ = .ok () :=
  ⟨(requireAdmin_contract ⟨1, "bob", false⟩).2.1 rfl,
   (requireAdmin_contract ⟨2, "root", true⟩).1.mpr rfl⟩

/-- C8 counterexample: `get_password_hash` applied to the empty string
succeeds with a digest — there is no validation branch in the source, so no
`InvalidInput` failure is ever produced. -/
theorem get_password_hash_empty_succeeds :
    get_password_hash 0 "" ≠ .error .invalidInput ∧
    (get_password_hash 0 "").isOk = true := by
  constructor
  · decide
  · decide

/-- C8 amended: the password-hashing operation succeeds on every input,
including the empty string; the source forwards the password to
`pwd_context.hash` with no validation of any kind. -/
theorem get_password_hash_total (salt : Nat) (password : String) :
    get_password_hash salt password = .ok (bcryptHash salt password) ∧
    (get_password_hash salt password).isOk = true :=
  ⟨rfl, rfl⟩

/-- Every task in the table `update_task` leaves behind descends from a
pre-state task with the same id, owner and completion flag: the endpoint
writes only the fields of the request schema (`title`, `description`). -/
theorem updateTask_mem_frame (i : Nat) (upd : TaskCreate) (u : User)
    (db : List Task) :
    ∀ x ∈ (update_task i upd u db).2, ∃ y ∈ db,
      y.id = x.id ∧ x.owner_id = y.owner_id ∧ x.completed = y.completed := by
  intro x hx
  unfold update_task at hx
  by_cases hi1 : i < 1
  · rw [if_pos hi1] at hx
    exact ⟨x, hx, rfl, rfl, rfl⟩
  · rw [if_neg hi1] at hx
    cases hfind : findOwnedTask i u db with
    | none =>
      rw [hfind] at hx
      exact ⟨x, hx, rfl, rfl, rfl⟩
    | some t =>
      rw [hfind] at hx
      rcases List.mem_map.1 hx with ⟨y, hy, rfl⟩
      refine ⟨y, hy, ?_, ?_, ?_⟩ <;>
        by_cases hc : (y.id == i && y.owner_id == some u.id) = true <;>
          simp [hc, applyTaskUpdate]

/-- `delete_task` only removes rows: every surviving task was already in the
table, unchanged. -/
theorem deleteTask_mem_subset (i : Nat) (u : User) (db : List Task) :
    ∀ x ∈ (delete_task i u db).2, x ∈ db := by
  intro x hx
  unfold delete_task at hx
  by_cases hi1 : i < 1
  · rw [if_pos hi1] at hx
    exact hx
  · rw [if_neg hi1] at hx
    cases hfind : findOwnedTask i u db with
    | none =>
      rw [hfind] at hx
      exact hx
    | some t =>
      rw [hfind] at hx
      exact List.mem_of_mem_filter hx

/-- C1: for an authenticated user B and a task id i such that no task with id
i is owned by B (the task belongs to a different user, has no owner, or does
not exist), read, update and delete of `/tasks/i` all fail with 404
`Task not found` and leave the table untouched; moreover each outcome equals
the outcome on a table from which every task with id i has been erased, so B
cannot distinguish another user's task from a missing one. -/
theorem ownership_isolation (i : Nat) (B : User) (upd : TaskCreate)
    (db : List Task) (hi : 1 ≤ i)
    (hB : ∀ t ∈ db, t.id = i → t.owner_id ≠ some B.id) :
    read_task i B db = .error taskNotFound ∧
    (update_task i upd B db).1 = .error taskNotFound ∧
    (update_task i upd B db).2 = db ∧
    (delete_task i B db).1 = .error taskNotFound ∧
    (delete_task i B db).2 = db ∧
    read_task i B db = read_task i B (db.filter (fun t => !(t.id == i))) ∧
    (update_task i upd B db).1 =
      (update_task i upd B (db.filter (fun t => !(t.id == i)))).1 ∧
    (delete_task i B db).1 =
      (delete_task i B (db.filter (fun t => !(t.id == i)))).1 := by
  have hnone : findOwnedTask i B db = none := findOwnedTask_eq_none hB
  have hnone' : findOwnedTask i B (db.filter (fun t => !(t.id == i))) = none := by
    apply findOwnedTask_eq_none
    intro t ht hid
    rcases List.mem_filter.1 ht with ⟨-, hflt⟩
    simp only [Bool.not_eq_true', beq_eq_false_iff_ne, ne_eq] at hflt
    exact absurd hid hflt
  have hlt : ¬ i < 1 := by omega
  refine ⟨?_, ?_, ?_, ?_, ?_, ?_, ?_, ?_⟩ <;>
    simp [read_task, update_task, delete_task, hnone, hnone', hlt]

/-- Witness for C1: user 2 reading, updating or deleting task 1, owned by
user 1, gets 404 `Task not found`, identical to the nonexistent-id outcome. -/
theorem ownership_isolation_witness :
    read_task 1 ⟨2, "bob@example.com", "h2"⟩
        [⟨1, "t", none, false, some 1⟩] = .error taskNotFound ∧
    read_task 1 ⟨2, "bob@example.com", "h2"⟩ [] = .error taskNotFound :=
  ⟨(ownership_isolation 1 ⟨2, "bob@example.com", "h2"⟩ ⟨"t2", none, false⟩
      [⟨1, "t", none, false, some 1⟩] (by decide) (by decide)).1,
   (ownership_isolation 1 ⟨2, "bob@example.com", "h2"⟩ ⟨"t2", none, false⟩
      [] (by decide) (by decide)).1⟩

/-- C6: a created task's owner is the authenticated caller (the request
schema carries no owner field, so the client cannot influence it), creation
appends without touching existing rows, and neither update nor delete ever
changes a surviving task's owner. -/
theorem owner_immutable (task_in : TaskCreate) (u : User) (db : List Task)
    (newId i : Nat) (upd : TaskCreate) :
    (create_task task_in u db newId).1.owner_id = some u.id ∧
    (create_task task_in u db newId).2 =
      db ++ [(create_task task_in u db newId).1] ∧
    (∀ x ∈ (update_task i upd u db).2, ∃ y ∈ db,
      y.id = x.id ∧ x.owner_id = y.owner_id) ∧
    (∀ x ∈ (delete_task i u db).2, x ∈ db) := by
  refine ⟨rfl, rfl, ?_, deleteTask_mem_subset i u db⟩
  intro x hx
  rcases updateTask_mem_frame i upd u db x hx with ⟨y, hy, hid, hown, -⟩
  exact ⟨y, hy, hid, hown⟩

/-- Witness for C6 on a one-row table. -/
theorem owner_immutable_witness :
    (create_task ⟨"t", none, false⟩ ⟨7, "a@b.c", "h"⟩ [] 1).1.owner_id = some 7 :=
  (owner_immutable ⟨"t", none, false⟩ ⟨7, "a@b.c", "h"⟩ [] 1 1 ⟨"s", none, false⟩).1

/-- C9: `update_task` changes at most `title` and `description` — id, owner
and completion flag of every surviving row, and of the returned row, match a
pre-state row — and since `TaskCreate` carries no `completed` field and
creation uses the column default `false`, no task operation can ever turn a
task's `completed` flag to true. -/
theorem update_frame_completed (i : Nat) (upd : TaskCreate) (u : User)
    (db : List Task) (task_in : TaskCreate) (newId : Nat) :
    (∀ x ∈ (update_task i upd u db).2, ∃ y ∈ db,
      y.id = x.id ∧ x.owner_id = y.owner_id ∧ x.completed = y.completed) ∧
    (∀ r, (update_task i upd u db).1 = .ok r → ∃ y ∈ db,
      y.id = r.id ∧ r.owner_id = y.owner_id ∧ r.completed = y.completed) ∧
    ((∀ t ∈ db, t.completed = false) →
      (∀ t ∈ (create_task task_in u db newId).2, t.completed = false) ∧
      (∀ t ∈ (update_task i upd u db).2, t.completed = false) ∧
      (∀ t ∈ (delete_task i u db).2, t.completed = false)) := by
  refine ⟨updateTask_mem_frame i upd u db, ?_, ?_⟩
  · intro r hr
    unfold update_task at hr
    by_cases hi1 : i < 1
    · rw [if_pos hi1] at hr
      exact absurd hr (by simp)
    · rw [if_neg hi1] at hr
      cases hfind : findOwnedTask i u db with
      | none =>
        rw [hfind] at hr
        exact absurd hr (by simp)
      | some t =>
        rw [hfind] at hr
        have ht : t ∈ db := List.mem_of_find?_eq_some hfind
        have hr' : applyTaskUpdate upd t = r := by
          simpa using hr
        exact ⟨t, ht, by rw [← hr']; rfl, by rw [← hr']; rfl, by rw [← hr']; rfl⟩
  · intro hall
    refine ⟨?_, ?_, ?_⟩
    · intro t ht
      rcases List.mem_append.1 ht with h | h
      · exact hall t h
      · rcases List.mem_singleton.1 h with rfl
        rfl
    · intro t ht
      rcases updateTask_mem_frame i upd u db t ht with ⟨y, hy, -, -, hc⟩
      rw [hc]
      exact hall y hy
    · intro t ht
      exact hall t (deleteTask_mem_subset i u db t ht)

/-- Witness for C9: updating the title of task 1 leaves id, owner and
completion flag intact. -/
theorem update_frame_completed_witness :
    (update_task 1 ⟨"new", none, false⟩ ⟨7, "a@b.c", "h"⟩
        [⟨1, "old", none, false, some 7⟩]).2 =
      [⟨1, "new", none, false, some 7⟩] ∧
    (∀ t ∈ (update_task 1 ⟨"new", none, false⟩ ⟨7, "a@b.c", "h"⟩
        [⟨1, "old", none, false, some 7⟩]).2, t.completed = false) :=
  ⟨by decide,
   ((update_frame_completed 1 ⟨"new", none, false⟩ ⟨7, "a@b.c", "h"⟩
      [⟨1, "old", none, false, some 7⟩] ⟨"x", none, false⟩ 2).2.2
        (by decide)).2.1⟩

/-- C10: a registration request whose password is shorter than 8 characters
is rejected by Pydantic validation with a 422 before the endpoint body runs —
nothing is hashed, the user table is unchanged — and conversely any
registration that succeeds had a password of at least 8 characters. -/
theorem register_password_minlength (email password : String)
    (salt newId : Nat) (users : List User) :
    (password.length < 8 →
      register_user email password salt newId users =
        (.error passwordTooShortError, users)) ∧
    (∀ u, (register_user email password salt newId users).1 = .ok u →
      8 ≤ password.length) := by
  constructor
  · intro h
    simp [register_user, userCreateValidate, h]
  · intro u hu
    by_contra hlen
    push_neg at hlen
    simp [register_user, userCreateValidate, hlen] at hu

/-- Witness for C10: the 5-character password "short" is rejected and creates
no user. -/
theorem register_password_minlength_witness :
    register_user "a@b.c" "short" 0 1 [] =
      (.error passwordTooShortError, []) :=
  (register_password_minlength "a@b.c" "short" 0 1 []).1 (by decide)

/-- C7 counterexample: a request that stages a pending write and completes
normally without the endpoint committing ends with the write absent from the
committed state — `get_db` has no commit on its normal path, so the session
scope does not commit pending writes on normal completion. -/
theorem get_db_no_commit_on_success :
    (get_db [] stageWriteBody).2 = none ∧
    (stageWriteBody (DBSession.fresh [])).1.pending = [1] ∧
    (get_db [] stageWriteBody).1.committed = [] ∧
    (get_db [] stageWriteBody).1.closeCount = 1 :=
  ⟨rfl, rfl, rfl, rfl⟩

/-- C7 amended: the session scope itself never commits — on normal completion
it closes the session, discarding whatever the handler left uncommitted
(committing is each endpoint's own job); on an exception it rolls back the
pending writes, re-raises the exception unchanged, and closes; in every case
the session is closed exactly once. -/
theorem get_db_scope_contract (initial : List Nat)
    (body : DBSession → DBSession × Option String)
    (hclose : (body (DBSession.fresh initial)).1.closeCount = 0) :
    (get_db initial body).1.closeCount = 1 ∧
    (get_db initial body).1.pending = [] ∧
    (get_db initial body).1.committed = (body (DBSession.fresh initial)).1.committed ∧
    (get_db initial body).2 = (body (DBSession.fresh initial)).2 ∧
    ((body (DBSession.fresh initial)).2 ≠ none →
      (get_db initial body).1.rollbackCount =
        (body (DBSession.fresh initial)).1.rollbackCount + 1) := by
  unfold get_db
  cases h : (body (DBSession.fresh initial)).2 <;>
    simp [DBSession.close, DBSession.rollback, hclose, h]

/-- Witness for the amended C7 with the non-committing body. -/
theorem get_db_scope_contract_witness :
    (stageWriteBody (DBSession.fresh [])).1.closeCount = 0 ∧
    (get_db [] stageWriteBody).1.closeCount = 1 ∧
    (get_db [] stageWriteBody).1.committed =
      (stageWriteBody (DBSession.fresh [])).1.committed :=
  ⟨rfl, (get_db_scope_contract [] stageWriteBody rfl).1,
   (get_db_scope_contract [] stageWriteBody rfl).2.2.1⟩

end TodoApi
